import Mathlib

/-!
Verification development for the `Sync/remote_sync.py` one-directional
filesystem mirror.  The Python functions are shallowly embedded as pure
Lean functions over explicit environments: filesystem outcomes (existence
checks, `chmod`/`makedirs`/`shutil.copy2` results), worker-thread wall-clock
durations, and probe results are supplied as data, and exceptions are
modelled with `Except`.  All definitions follow the source line by line;
the line numbers cited in doc comments refer to `src/Sync/remote_sync.py`.
-/

namespace RemoteSync

/-- Kinds of Python exceptions relevant to `remote_sync.py`. -/
inductive PyError where
  | timeoutError
  | permissionError
  | fileNotFoundError
  | osError
  | indexError
  deriving DecidableEq, Repr

instance {ε α : Type} [DecidableEq ε] [DecidableEq α] : DecidableEq (Except ε α) :=
  fun a b =>
    match a, b with
    | .error e, .error f =>
      if h : e = f then isTrue (by rw [h]) else isFalse (by intro c; injection c; exact h ‹_›)
    | .ok x, .ok y =>
      if h : x = y then isTrue (by rw [h]) else isFalse (by intro c; injection c; exact h ‹_›)
    | .error _, .ok _ => isFalse (by intro c; exact Except.noConfusion c)
    | .ok _, .error _ => isFalse (by intro c; exact Except.noConfusion c)

/-- Operation timeout in seconds (line 60). -/
def TIMEOUT : Nat := 30

/-- Maximum retry attempts (line 61). -/
def MAX_RETRIES : Nat := 3

/-- Retry wait time in seconds (line 62). -/
def RETRY_DELAY : Nat := 5

/-- The loop body of `retry_operation` (lines 191-200), structurally recursive
on the number of remaining loop iterations.  `op` maps the attempt index to
the attempt's outcome.  Returns the final outcome, the number of attempts
actually made, and the list of `time.sleep` delays taken between attempts.
With `remaining = 0` the Python `for` loop body would never run; that branch
is dead for `MAX_RETRIES = 3`. -/
def retryGo {α : Type} (op : Nat → Except PyError α) (attempt : Nat) :
    Nat → Except PyError α × Nat × List Nat
  | 0 => (op attempt, 0, [])
  | 1 => (op attempt, 1, [])
  | n + 2 =>
    match op attempt with
    | .ok a => (.ok a, 1, [])
    | .error _ =>
      let r := retryGo op (attempt + 1) (n + 1)
      (r.1, r.2.1 + 1, RETRY_DELAY :: r.2.2)

/-- `retry_operation(operation, *args)` (lines 191-200): up to `MAX_RETRIES`
attempts; after a failed attempt that is not the last, sleep `RETRY_DELAY`
seconds; after the last failed attempt re-raise.  Note the `except Exception`
clause catches every exception kind, `TimeoutError` included. -/
def retry_operation {α : Type} (op : Nat → Except PyError α) :
    Except PyError α × Nat × List Nat :=
  retryGo op 0 MAX_RETRIES

/-- Environment of one execution of the worker body `copy_with_timeout`
(lines 204-236): the outcome every filesystem call would have if reached.
`none` means the call succeeds, `some e` that it raises `e`. -/
structure CopyEnv where
  osName : String
  dstDirExists : Bool
  makedirsResult : Option PyError
  dstExists : Bool
  chmodDstResult : Option PyError
  copy2Result : Option PyError
  chmodAfterResult : Option PyError
  chmodDirResult : Option PyError
  copy2RetryResult : Option PyError
  chmodAfterRetryResult : Option PyError
  deriving DecidableEq, Repr

/-- Sequencing of one fallible Python statement: raise `e` or continue. -/
def step (r : Option PyError) (k : Except PyError Unit) : Except PyError Unit :=
  match r with
  | some e => .error e
  | none => k

/-- A statement executed only under a condition (the `if not os.path.exists`
guards of lines 208 and 212). -/
def stepIf (cond : Bool) (r : Option PyError) (k : Except PyError Unit) :
    Except PyError Unit :=
  if cond then step r k else k

/-- Outcome of the `try` block of `copy_with_timeout` (lines 205-219):
conditionally `os.makedirs(dst_dir)`, conditionally `os.chmod(dst, 0o777)`,
then `shutil.copy2(src, dst)`, then `os.chmod(dst, 0o666)`. -/
def firstAttemptResult (env : CopyEnv) : Except PyError Unit :=
  stepIf (!env.dstDirExists) env.makedirsResult
    (stepIf env.dstExists env.chmodDstResult
      (step env.copy2Result
        (step env.chmodAfterResult (.ok ()))))

/-- Whether control of the `try` block reaches the `shutil.copy2` call of
line 216 (i.e. the preceding `makedirs`/`chmod` statements did not raise). -/
def firstCopyReached (env : CopyEnv) : Bool :=
  (env.dstDirExists || env.makedirsResult == none) &&
  (!env.dstExists || env.chmodDstResult == none)

/-- Outcome of the Windows permission-recovery block (lines 228-231):
`os.chmod(dst_dir, 0o777)`, `shutil.copy2(src, dst)`, `os.chmod(dst, 0o666)`;
its inner `except Exception` clause logs and re-raises (lines 232-234). -/
def recoveryResult (env : CopyEnv) : Except PyError Unit :=
  step env.chmodDirResult
    (step env.copy2RetryResult
      (step env.chmodAfterRetryResult (.ok ())))

/-- Whether the recovery block reaches its `shutil.copy2` call (line 230). -/
def recoveryCopyReached (env : CopyEnv) : Bool :=
  env.chmodDirResult == none

/-- Observable outcome of one run of the worker body `copy_with_timeout`:
the exception escaping it (if any), how many times `shutil.copy2` was
invoked, and whether the recovery path forced the destination directory
to permissive mode (`os.chmod(dst_dir, 0o777)`, line 229). -/
structure CopyRunResult where
  result : Except PyError Unit
  copy2Attempts : Nat
  forcedDirPermissive : Bool
  deriving DecidableEq, Repr

/-- `copy_with_timeout` (lines 204-236): run the `try` block; a
`PermissionError` is caught (line 220) and, only when `os.name == 'nt'`
(line 223), handled by forcing the destination directory permissive and
retrying the copy once inline; any other exception — and a `PermissionError`
on a non-Windows host (line 236) — is re-raised. -/
def copy_with_timeout (env : CopyEnv) : CopyRunResult :=
  let firstCount := if firstCopyReached env then 1 else 0
  match firstAttemptResult env with
  | .ok _ => ⟨.ok (), firstCount, false⟩
  | .error e =>
    if e = .permissionError then
      if env.osName = "nt" then
        ⟨recoveryResult env,
         firstCount + (if recoveryCopyReached env then 1 else 0), true⟩
      else ⟨.error e, firstCount, false⟩
    else ⟨.error e, firstCount, false⟩

/-- Environment of one `safe_copy_file` call (lines 203-249): the worker's
filesystem environment plus the wall-clock duration, in seconds, that the
worker thread needs to finish. -/
structure SafeCopyEnv where
  copyEnv : CopyEnv
  workerDuration : Nat
  deriving DecidableEq, Repr

/-- Observable outcome of one `safe_copy_file` call.  `result` is what the
joining caller sees; `workerOutcome` is what happened inside the worker
thread (never consulted by the caller — an exception escaping
`copy_with_timeout` only terminates the daemon thread); `workerAbandoned`
records whether the thread was still alive when the caller returned. -/
structure SafeCopyResult where
  result : Except PyError Bool
  workerOutcome : Except PyError Unit
  workerAbandoned : Bool
  workersSpawned : Nat
  deriving DecidableEq, Repr

/-- `safe_copy_file(src, dst)` (lines 203-249): start one daemon thread
running `copy_with_timeout`, `join` it for `TIMEOUT` seconds; if the thread
is still alive raise `TimeoutError`, otherwise `return True`.  The thread's
own exception, if any, is not propagated to the joining caller. -/
def safe_copy_file (env : SafeCopyEnv) : SafeCopyResult :=
  let w := copy_with_timeout env.copyEnv
  { result := if TIMEOUT < env.workerDuration then .error .timeoutError else .ok true
    workerOutcome := w.result
    workerAbandoned := decide (TIMEOUT < env.workerDuration)
    workersSpawned := 1 }

/-- Whether some `shutil.copy2` call inside the worker body succeeded (and
hence wrote the destination, preserving the source mtime). -/
def copy2Succeeded (env : CopyEnv) : Bool :=
  (firstCopyReached env && env.copy2Result == none) ||
  (match firstAttemptResult env with
   | .error e =>
     e == .permissionError && env.osName == "nt" &&
     recoveryCopyReached env && env.copy2RetryResult == none
   | .ok _ => false)

/-- Destination mtime after one `safe_copy_file` call, given the initial
destination mtime (`none` = destination absent) and the source mtime:
`shutil.copy2` preserves the source mtime when it succeeds; otherwise the
destination is left as it was. -/
def dstMtimeAfter (env : SafeCopyEnv) (dst0 : Option Nat) (srcMtime : Nat) :
    Option Nat :=
  if copy2Succeeded env.copyEnv then some srcMtime else dst0

/-- The retried copy of spec section 4.3: `retry_operation(safe_copy_file,
src, dst)` as invoked at lines 361, 466 and 505.  Attempt `i` runs in
environment `envs i`. -/
def retried_safe_copy (envs : Nat → SafeCopyEnv) :
    Except PyError Bool × Nat × List Nat :=
  retry_operation (fun i => (safe_copy_file (envs i)).result)

/-- A benign copy environment: everything exists or succeeds. -/
def benignCopyEnv : CopyEnv :=
  { osName := "posix", dstDirExists := true, makedirsResult := none
    dstExists := false, chmodDstResult := none
    copy2Result := none, chmodAfterResult := none
    chmodDirResult := none, copy2RetryResult := none
    chmodAfterRetryResult := none }

/-- C1's failing input: the underlying `shutil.copy2` raises
`FileNotFoundError` on every attempt, and the worker finishes in 1 s
(well within `TIMEOUT`). -/
def c1Env : SafeCopyEnv :=
  { copyEnv := { benignCopyEnv with copy2Result := some .fileNotFoundError }
    workerDuration := 1 }

/-- A copy whose worker needs 31 s, exceeding `TIMEOUT = 30`. -/
def c2Env : SafeCopyEnv := { copyEnv := benignCopyEnv, workerDuration := 31 }

/-- A fast worker whose copy raises `FileNotFoundError`. -/
def c4Env : SafeCopyEnv := c1Env

/-- Python strings are modelled as character lists, so that every string
operation of the source is a structurally recursive Lean function the
kernel can evaluate. -/
abbrev PyStr := List Char

/-- `str.split(sep)` for a one-character separator (Python semantics:
splitting the empty string yields one empty component). -/
def splitOnChar (c : Char) : List Char → List (List Char)
  | [] => [[]]
  | x :: xs =>
    match splitOnChar c xs with
    | [] => [[x]]
    | g :: gs => if x = c then [] :: g :: gs else (x :: g) :: gs

/-- The configured root pair (`REMOTE_DIR`, `LOCAL_DIR`), lines 56-57. -/
structure SyncConfig where
  remoteDir : PyStr
  localDir : PyStr
  deriving DecidableEq, Repr

/-- Segment list with empty components removed, as in
`[x for x in path.split(sep) if x]` inside `os.path.relpath`. -/
def stripEmpty (l : List PyStr) : List PyStr := l.filter (fun s => s ≠ [])

/-- Length of the common prefix of two segment lists
(`os.path.commonprefix` on the two component lists). -/
def commonLen : List PyStr → List PyStr → Nat
  | a :: as, b :: bs => if a = b then commonLen as bs + 1 else 0
  | _, _ => 0

/-- POSIX `os.path.relpath(path, start)` for already-absolute,
already-normal paths: split both on the separator dropping empty
components, strip the common component prefix, prepend one `".."` per
remaining `start` component, and join; the empty result is `"."`. -/
def relpath (path start : PyStr) : PyStr :=
  let p := stripEmpty (splitOnChar '/' path)
  let s := stripEmpty (splitOnChar '/' start)
  let i := commonLen p s
  let parts := List.replicate (s.length - i) "..".toList ++ p.drop i
  if parts = [] then ".".toList else List.intercalate ['/'] parts

/-- `should_ignore_path(path)` (lines 267-283): relativize against
`REMOTE_DIR` when it is a string prefix of `path` (`str.startswith`), else
against `LOCAL_DIR` when that is a string prefix, else keep the raw path;
split on the separator; return whether some component equals `"build"`. -/
def should_ignore_path (cfg : SyncConfig) (path : PyStr) : Bool :=
  let rel :=
    if cfg.remoteDir.isPrefixOf path then relpath path cfg.remoteDir
    else if cfg.localDir.isPrefixOf path then relpath path cfg.localDir
    else path
  (splitOnChar '/' rel).contains "build".toList

/-- The same relativize-then-split pipeline as `should_ignore_path`,
exposed as a segment list. -/
def codeRelSegments (cfg : SyncConfig) (path : PyStr) : List PyStr :=
  splitOnChar '/'
    (if cfg.remoteDir.isPrefixOf path then relpath path cfg.remoteDir
     else if cfg.localDir.isPrefixOf path then relpath path cfg.localDir
     else path)

/-- Spec-side notion (spec sections 3 and 4.1): a path falls under a root
when it equals the root or lies inside the root's subtree. -/
def fallsUnder (root path : PyStr) : Bool :=
  path == root || (root ++ ['/']).isPrefixOf path

/-- Spec-side relative path of a path that falls under `root`: strip the
root and the following separator, and split into segments. -/
def relSegmentsSpec (root path : PyStr) : List PyStr :=
  if path == root then [] else splitOnChar '/' (path.drop (root.length + 1))

/-- The predicate claim C5 describes, read with the natural meaning of
"falls under": some segment of the path taken relative to the sync root it
falls under (source root first), or of the raw path if it falls under
neither root, literally equals `"build"`. -/
def specShouldIgnore (cfg : SyncConfig) (path : PyStr) : Bool :=
  if fallsUnder cfg.remoteDir path then
    (relSegmentsSpec cfg.remoteDir path).contains "build".toList
  else if fallsUnder cfg.localDir path then
    (relSegmentsSpec cfg.localDir path).contains "build".toList
  else (splitOnChar '/' path).contains "build".toList

/-- Root pair whose source root itself has a `"build"` segment. -/
def c5cfg : SyncConfig := { remoteDir := "/build/s".toList, localDir := "/dst".toList }

/-- One source file seen by the bulk walk: its path relative to the source
root, as a segment list, and its mtime. -/
structure SrcFile where
  rel : List PyStr
  mtime : Nat
  deriving DecidableEq, Repr

/-- `should_ignore_path` specialised to a path under the source root, whose
relative segment list is `rel` (lines 276-283): ignore iff some segment is
`"build"`. -/
def shouldIgnoreRel (rel : List PyStr) : Bool := rel.contains "build".toList

/-- The copy condition of line 359: destination missing, or source mtime
strictly greater than destination mtime. -/
def eligible (dst : List PyStr → Option Nat) (f : SrcFile) : Bool :=
  match dst f.rel with
  | none => true
  | some m => decide (m < f.mtime)

/-- Destination state after the per-file block ran for `f`: a successful
copy writes `f.rel` with the source mtime (`shutil.copy2` preserves it); a
failed copy leaves the entry as it was.  No other path is touched. -/
def updDst (ok : List PyStr → Bool) (dst : List PyStr → Option Nat) (f : SrcFile) :
    List PyStr → Option Nat :=
  fun q => if q = f.rel then (if ok f.rel then some f.mtime else dst q) else dst q

/-- The per-file loop of `initial_sync` (lines 334-400) over the eligible
walk, threading the destination state: ignored files are skipped outright
(lines 336, 351-352); for the rest, the retried copy is invoked exactly
when `eligible` holds (line 359), otherwise the file is counted as skipped
(lines 381-398).  A failing copy (`ok f.rel = false`) is logged at line 400
and the loop continues.  Returns (files whose copy was invoked, files
skipped by the staleness check). -/
def initial_sync (ok : List PyStr → Bool) (dst : List PyStr → Option Nat) :
    List SrcFile → List SrcFile × List SrcFile
  | [] => ([], [])
  | f :: fs =>
    if shouldIgnoreRel f.rel then initial_sync ok dst fs
    else if eligible dst f then
      (f :: (initial_sync ok (updDst ok dst f) fs).1,
       (initial_sync ok (updDst ok dst f) fs).2)
    else
      ((initial_sync ok dst fs).1, f :: (initial_sync ok dst fs).2)

/-- `os.path.join` for POSIX paths (used at lines 449-450, 476, 496). -/
def pyJoin (a b : PyStr) : PyStr :=
  if ['/'].isPrefixOf b then b
  else if a = [] then b
  else if a.getLast? == some '/' then a ++ b
  else a ++ ['/'] ++ b

/-- `os.path.dirname` for POSIX paths: the part before the last separator,
with trailing separators stripped unless the result is all separators. -/
def pyDirname (p : PyStr) : PyStr :=
  let revTail := p.reverse.dropWhile (fun c => c ≠ '/')
  if revTail = [] then []
  else if revTail.all (fun c => c = '/') then revTail.reverse
  else (revTail.dropWhile (fun c => c = '/')).reverse

/-- One filesystem action issued by an event handler. -/
inductive SyncTask where
  | ensureDir (path : PyStr)
  | moveLocal (src dst : PyStr)
  | copyRemote (src dst : PyStr)
  deriving DecidableEq, Repr

/-- Whether a task reads the source (remote) tree: only the retried copy
does; a local rename never does. -/
def readsRemote : SyncTask → Bool
  | .copyRemote _ _ => true
  | _ => false

/-- Number of copy tasks in a task list. -/
def countCopies (ts : List SyncTask) : Nat := (ts.filter readsRemote).length

/-- Environment of one Moved event (lines 436-471): the root pair, the
event's pre-move and post-move source paths, and the local existence check
`os.path.exists` as an oracle over destination paths. -/
structure MovedEnv where
  cfg : SyncConfig
  srcPath : PyStr
  destPath : PyStr
  localExists : PyStr → Bool

/-- `_should_handle_event` (lines 421-426) for a Moved event, which always
carries a `dest_path`: drop it when the source path is ignored, or when the
destination path is non-empty and ignored. -/
def shouldHandleMoved (env : MovedEnv) : Bool :=
  !(should_ignore_path env.cfg env.srcPath) &&
  !(env.destPath ≠ [] && should_ignore_path env.cfg env.destPath)

/-- `SyncHandler.on_moved` (lines 436-471) as the list of filesystem tasks
it issues: gate by `_should_handle_event`; drop events with an empty source
or destination path (lines 441-443); compute both relative paths against
`REMOTE_DIR` and the two local paths; ensure the destination directory
exists; then either rename the existing local pre-move entry to the local
post-move path (lines 456-460), or copy the post-move source file to the
local post-move path (lines 463-467). -/
def on_moved (env : MovedEnv) : List SyncTask :=
  if !(shouldHandleMoved env) then []
  else if env.srcPath = [] || env.destPath = [] then []
  else
    let localSrc := pyJoin env.cfg.localDir (relpath env.srcPath env.cfg.remoteDir)
    let localDest := pyJoin env.cfg.localDir (relpath env.destPath env.cfg.remoteDir)
    SyncTask.ensureDir (pyDirname localDest) ::
      (if env.localExists localSrc then [SyncTask.moveLocal localSrc localDest]
       else [SyncTask.copyRemote env.destPath localDest])

/-- Environment of one Created/Modified event handled by
`SyncHandler._sync_event` (lines 489-508). -/
structure EventEnv where
  isDirectory : Bool
  ensureDirResult : Option PyError
  copyResult : Except PyError Bool
  deriving DecidableEq, Repr

/-- What one handler invocation did: returned normally (recording whether a
per-file failure was caught and logged), or let an exception escape. -/
inductive HandlerOutcome where
  | returned (loggedError : Bool)
  | raised (e : PyError)
  deriving DecidableEq, Repr

/-- `SyncHandler._sync_event` (lines 489-508): directory events return at
once; `ensure_dir_exists` (line 499) runs before the `try` block, so its
exception escapes the handler; the retried copy runs inside the `try`
(lines 501-506) whose `except` logs `Sync failed` (line 508). -/
def sync_event (env : EventEnv) : HandlerOutcome :=
  if env.isDirectory then .returned false
  else
    match env.ensureDirResult with
    | some e => .raised e
    | none =>
      match env.copyResult with
      | .ok _ => .returned false
      | .error _ => .returned true

/-- Whether a retried-copy outcome is a failure (to be logged). -/
def exceptFailed (r : Except PyError Bool) : Bool :=
  match r with
  | .ok _ => false
  | .error _ => true

/-- The claim C10 makes about the live phase: a handler never lets a
per-file failure escape. -/
def claimC10Live : Prop :=
  ∀ (env : EventEnv) (e : PyError), env.isDirectory = false → sync_event env ≠ .raised e

/-- C10's counterexample input: a file event whose destination-directory
creation (`os.makedirs` inside `ensure_dir_exists`, line 148) raises. -/
def c10Env : EventEnv :=
  { isDirectory := false, ensureDirResult := some .permissionError, copyResult := .ok true }

/-- A file event whose retried copy fails but whose directory creation
succeeds. -/
def c10wEnv : EventEnv :=
  { isDirectory := false, ensureDirResult := none, copyResult := .error .osError }

/-- One destructive or transfer operation executed against the destination
tree, abstracted from the handlers: a copy to a relative path (`written`
records whether anything reached the destination — a failed or timed-out
copy may have written partially or not at all, never removed), an explicit
delete (`os.remove` / `shutil.rmtree`, lines 481-484, removing the path and
its subtree), a move (`shutil.move`, line 459, performed only when the
pre-move entry exists), and a directory creation. -/
inductive DstOp where
  | copyOp (rel : List PyStr) (written : Bool)
  | deleteOp (rel : List PyStr)
  | moveOp (preRel postRel : List PyStr)
  | mkdirOp (rel : List PyStr)
  deriving DecidableEq, Repr

/-- Effect of one operation on the destination tree, seen as the set of
relative paths that exist (`s q = true` iff an entry exists at `q`). -/
def applyOp (s : List PyStr → Bool) : DstOp → (List PyStr → Bool)
  | .copyOp rel written => fun q => if q = rel then (written || s q) else s q
  | .deleteOp rel => fun q => if rel.isPrefixOf q then false else s q
  | .moveOp pre post => fun q =>
    if s pre then (if q = post then true else if q = pre then false else s q) else s q
  | .mkdirOp _ => fun q => s q

/-- Whether an operation is an explicit Delete task for exactly `rel`. -/
def isDeleteFor (op : DstOp) (rel : List PyStr) : Bool :=
  match op with
  | .deleteOp r => r == rel
  | _ => false

/-- The claim C8 makes: whenever an operation removes an existing
destination entry, that operation is an explicit Delete task for the
entry's relative path. -/
def claimC8 : Prop :=
  ∀ (s : List PyStr → Bool) (op : DstOp) (q : List PyStr),
    s q = true → applyOp s op q = false → isDeleteFor op q = true

/-- Destination state for C8's counterexample: exactly one file `a.txt`. -/
def c8State : List PyStr → Bool := fun q => q == ["a.txt".toList]

/-- The move issued by `on_moved` for a rename of `a.txt` to `b.txt`. -/
def c8Move : DstOp := .moveOp ["a.txt".toList] ["b.txt".toList]

/-- Environment of one `is_remote_accessible()` call (lines 165-188):
outcomes of the direct existence check, the `net use` mapping
(`map_network_drive`, lines 152-162, whose own failure yields `None`), the
mapped-path existence check, the UNC parse `REMOTE_DIR.split('\\\\')[1]`
(which raises `IndexError` on a non-UNC path), and the raw TCP connect to
port 445. -/
structure ProbeEnv where
  existsRemote : Bool
  mapDriveRaises : Bool
  existsMapped : Bool
  ipExtract : Except PyError String
  connectResult : Except PyError Unit

/-- `map_network_drive()` (lines 152-162): returns the drive letter, or
`None` when its body raised. -/
def map_network_drive (env : ProbeEnv) : Option String :=
  if env.mapDriveRaises then none else some "Z:"

/-- The tail of the probe's `try` block (lines 178-185): parse the host out
of `REMOTE_DIR`, TCP-connect to port 445, close, and `return False` even on
success. -/
def probeSocketTail (env : ProbeEnv) : Except PyError Bool :=
  match env.ipExtract with
  | .error e => .error e
  | .ok _ =>
    match env.connectResult with
    | .error e => .error e
    | .ok _ => .ok false

/-- The `try` block of `is_remote_accessible` (lines 166-185). -/
def probeBody (env : ProbeEnv) : Except PyError Bool :=
  if env.existsRemote then .ok true
  else
    match map_network_drive env with
    | some _ => if env.existsMapped then .ok true else probeSocketTail env
    | none => probeSocketTail env

/-- `is_remote_accessible()` (lines 165-188): the whole body runs under
`try`, and the `except Exception` handler logs a warning and returns
`False`, so the function is total and never raises. -/
def is_remote_accessible (env : ProbeEnv) : Bool :=
  match probeBody env with
  | .ok b => b
  | .error _ => false

/-- C3's counterexample input: `shutil.copy2` raises `PermissionError` on a
non-Windows host (`os.name == 'posix'`). -/
def c3Env : CopyEnv := { benignCopyEnv with copy2Result := some .permissionError }

/-- The same permission failure on Windows (`os.name == 'nt'`). -/
def c3wEnv : CopyEnv := { c3Env with osName := "nt" }

/-- The claim C3 makes, at one environment: a copy call that encounters a
permission error forces permissive modes and retries the copy exactly once
more inline (one extra `shutil.copy2` attempt beyond the first). -/
def claimC3At (env : CopyEnv) : Prop :=
  firstAttemptResult env = .error .permissionError →
    (copy_with_timeout env).forcedDirPermissive = true ∧
    (copy_with_timeout env).copy2Attempts = (if firstCopyReached env then 1 else 0) + 1

/-- Source listing for C6's witness: `a` (new), `build/x` (ignored),
`b` (not newer than the destination's copy). -/
def c6files : List SrcFile :=
  [⟨["a".toList], 5⟩, ⟨["build".toList, "x".toList], 9⟩, ⟨["b".toList], 3⟩]

/-- Destination state for C6's witness: only `b`, at mtime 3. -/
def c6dst : List PyStr → Option Nat :=
  fun q => if q = ["b".toList] then some 3 else none

/-- All copies succeed in C6's witness run. -/
def c6ok : List PyStr → Bool := fun _ => true

/-- The file C6's witness tracks. -/
def c6f : SrcFile := ⟨["a".toList], 5⟩

/-- Root pair for C7's witness. -/
def c7cfg : SyncConfig := { remoteDir := "/r".toList, localDir := "/dst".toList }

/-- C7's witness event: `a.txt` moved to `b.txt` under the source root,
with the pre-move entry present in the destination. -/
def c7env : MovedEnv :=
  { cfg := c7cfg, srcPath := "/r/a.txt".toList, destPath := "/r/b.txt".toList
    localExists := fun p => p == "/dst/a.txt".toList }

/-- C1 (code bug): at the failing input `c1Env` — the underlying
`shutil.copy2` raises `FileNotFoundError` on every attempt and the worker
finishes within `TIMEOUT` — the retried copy `retry_operation(safe_copy_file,
src, dst)` returns `True` after a single attempt, with no retries, no
delays and no exception, because the worker thread swallows the copy's
exception; the destination stays unwritten, so its mtime does not equal the
source's.  This contradicts the claimed contract (success with equal mtimes,
or `MAX_RETRIES` attempts with `RETRY_DELAY` between and the last exception
raised). -/
theorem C1_retried_copy_swallows_failure :
    retried_safe_copy (fun _ => c1Env) = (.ok true, 1, ([] : List Nat)) ∧
    (safe_copy_file c1Env).workerOutcome = .error .fileNotFoundError ∧
    dstMtimeAfter c1Env none 100 = none :=
  ⟨rfl, rfl, rfl⟩

/-- C2: when the worker has not completed after `TIMEOUT` seconds, one
`safe_copy_file` call raises `TimeoutError`, the timed-out worker is
abandoned (left alive, not cancelled), and no further attempt is made
within that call — exactly one worker thread is spawned. -/
theorem C2_timeout_raises_and_abandons (env : SafeCopyEnv)
    (h : TIMEOUT < env.workerDuration) :
    (safe_copy_file env).result = .error .timeoutError ∧
    (safe_copy_file env).workerAbandoned = true ∧
    (safe_copy_file env).workersSpawned = 1 :=
  ⟨by simp [safe_copy_file, h], by simp [safe_copy_file, h], rfl⟩

/-- Witness for C2 at a worker needing 31 s against the 30 s budget. -/
theorem C2_timeout_raises_and_abandons_witness :
    (safe_copy_file c2Env).result = .error .timeoutError ∧
    (safe_copy_file c2Env).workerAbandoned = true ∧
    (safe_copy_file c2Env).workersSpawned = 1 :=
  C2_timeout_raises_and_abandons c2Env (by decide)

/-- C4: the only exception `safe_copy_file` can raise to its caller is
`TimeoutError`; whenever the worker finishes within `TIMEOUT`, the call
returns `True`, whatever happened inside the worker thread. -/
theorem C4_only_timeout_escapes (env : SafeCopyEnv) :
    ((safe_copy_file env).result = .ok true ∨
      (safe_copy_file env).result = .error .timeoutError) ∧
    (env.workerDuration ≤ TIMEOUT → (safe_copy_file env).result = .ok true) := by
  constructor
  · by_cases h : TIMEOUT < env.workerDuration
    · exact Or.inr (by simp [safe_copy_file, h])
    · exact Or.inl (by simp [safe_copy_file, h])
  · intro hle
    have h : ¬ TIMEOUT < env.workerDuration := Nat.not_lt.mpr hle
    simp [safe_copy_file, h]

/-- Witness for C4: a worker whose copy raised `FileNotFoundError` still
makes `safe_copy_file` report success. -/
theorem C4_only_timeout_escapes_witness :
    (safe_copy_file c4Env).result = .ok true ∧
    (safe_copy_file c4Env).workerOutcome = .error .fileNotFoundError :=
  ⟨(C4_only_timeout_escapes c4Env).2 (by decide), rfl⟩

/-- C3 (counterexample): on a non-Windows host (`os.name ≠ 'nt'`), a copy
that encounters a `PermissionError` is not retried inline at all — the
error is re-raised after the single first attempt, and no permission
forcing happens. -/
theorem C3_counterexample : ¬ claimC3At c3Env := by
  intro h
  exact absurd (h rfl).1 (by decide)

/-- C3 (amended): only on Windows (`os.name == 'nt'`) does a permission
error make the copier force the destination directory to permissive mode
and retry the copy exactly once more inline (one extra `shutil.copy2`
attempt whenever the forced chmod succeeds) before surfacing the recovery
outcome; on any other platform the permission error is re-raised with no
inline retry and no permission forcing. -/
theorem C3_permission_retry_windows_only (env : CopyEnv)
    (hperm : firstAttemptResult env = .error .permissionError) :
    (env.osName = "nt" →
      (copy_with_timeout env).forcedDirPermissive = true ∧
      (copy_with_timeout env).copy2Attempts =
        (if firstCopyReached env then 1 else 0) +
          (if recoveryCopyReached env then 1 else 0) ∧
      (copy_with_timeout env).result = recoveryResult env) ∧
    (env.osName ≠ "nt" →
      (copy_with_timeout env).forcedDirPermissive = false ∧
      (copy_with_timeout env).copy2Attempts = (if firstCopyReached env then 1 else 0) ∧
      (copy_with_timeout env).result = .error .permissionError) := by
  unfold copy_with_timeout
  rw [hperm]
  constructor
  · intro hnt
    simp [hnt]
  · intro hnt
    simp [hnt]

/-- Witness for C3's amended claim: the Windows permission-recovery path
forces the directory permissive and performs the one inline retry. -/
theorem C3_permission_retry_windows_only_witness :
    (copy_with_timeout c3wEnv).forcedDirPermissive = true ∧
    (copy_with_timeout c3wEnv).copy2Attempts = 2 ∧
    (copy_with_timeout c3wEnv).result = recoveryResult c3wEnv :=
  (C3_permission_retry_windows_only c3wEnv rfl).1 rfl

/-- C9: `is_remote_accessible` is a total boolean — every exception of its
body, probe steps included, is caught — and it returns `true` exactly when
the direct existence check succeeds or the share mapping succeeded and the
mapped-path existence check succeeds.  In particular, whenever both
existence checks fail it returns `false`, whatever the TCP connect to the
file-sharing port did (succeed, fail, or raise). -/
theorem C9_probe_total_characterization (env : ProbeEnv) :
    is_remote_accessible env =
      (env.existsRemote || (!env.mapDriveRaises && env.existsMapped)) := by
  obtain ⟨er, mr, em, ip, cn⟩ := env
  cases er <;> cases mr <;> cases em <;> cases ip <;> cases cn <;>
    simp [is_remote_accessible, probeBody, map_network_drive, probeSocketTail]

/-- C5 (counterexample): with source root `/build/s`, the path `/build/sx`
does not fall under either root, and its raw segments contain `"build"`, so
the claim predicts `true`; but the code relativizes against `/build/s`
because of the plain string-prefix test (`str.startswith`), obtaining
`../sx`, and returns `false`. -/
theorem C5_counterexample :
    should_ignore_path c5cfg "/build/sx".toList = false ∧
    specShouldIgnore c5cfg "/build/sx".toList = true := by
  decide

/-- C5 (amended): `should_ignore_path` returns true iff some segment of the
path taken relative (via `os.path.relpath`, so possibly with `..` segments)
to whichever sync root is a literal string prefix of it — the source root
checked first — or of the raw path when neither root is a string prefix,
literally equals `"build"`, regardless of depth or position. -/
theorem C5_ignore_iff_build_segment (cfg : SyncConfig) (path : PyStr) :
    should_ignore_path cfg path = true ↔ "build".toList ∈ codeRelSegments cfg path := by
  simp only [should_ignore_path, codeRelSegments]
  exact List.elem_iff

/-- C8 (counterexample): a Moved event whose pre-move destination entry
exists triggers `shutil.move`, which removes the destination entry at the
pre-move relative path even though the executed operation is not a Delete
task for that path. -/
theorem C8_counterexample : ¬ claimC8 := by
  intro h
  have := h c8State c8Move ["a.txt".toList] (by decide) (by decide)
  exact absurd this (by decide)

/-- C8 (amended): an existing destination entry is removed only by an
explicit Delete task whose path is the entry's relative path or an ancestor
of it (`shutil.rmtree` removes the subtree), or by a Move task whose
pre-move path is the entry's path; and in particular no execution of the
copy operation — successful, failing, or timed out — ever removes an
existing destination entry. -/
theorem C8_removal_only_delete_or_move :
    (∀ (s : List PyStr → Bool) (op : DstOp) (q : List PyStr),
        s q = true → applyOp s op q = false →
        (∃ r, op = .deleteOp r ∧ r.isPrefixOf q = true) ∨
        (∃ pre post, op = .moveOp pre post ∧ pre = q)) ∧
    (∀ (s : List PyStr → Bool) (rel : List PyStr) (written : Bool) (q : List PyStr),
        s q = true → applyOp s (.copyOp rel written) q = true) := by
  constructor
  · intro s op q hs happ
    cases op with
    | copyOp rel written =>
      exfalso
      simp only [applyOp] at happ
      by_cases hq : q = rel
      · subst hq
        rw [if_pos rfl, hs] at happ
        simp at happ
      · rw [if_neg hq, hs] at happ
        exact absurd happ (by decide)
    | deleteOp rel =>
      left
      refine ⟨rel, rfl, ?_⟩
      by_cases hp : rel.isPrefixOf q = true
      · exact hp
      · exfalso
        simp only [applyOp] at happ
        rw [if_neg hp, hs] at happ
        exact absurd happ (by decide)
    | moveOp pre post =>
      right
      simp only [applyOp] at happ
      by_cases hpre : s pre = true
      · rw [if_pos hpre] at happ
        by_cases hqp : q = post
        · rw [if_pos hqp] at happ
          exact absurd happ (by decide)
        · rw [if_neg hqp] at happ
          by_cases hqpre : q = pre
          · exact ⟨pre, post, rfl, hqpre.symm⟩
          · exfalso
            rw [if_neg hqpre, hs] at happ
            exact absurd happ (by decide)
      · exfalso
        rw [if_neg hpre, hs] at happ
        exact absurd happ (by decide)
    | mkdirOp rel =>
      exfalso
      simp only [applyOp] at happ
      rw [hs] at happ
      exact absurd happ (by decide)
  · intro s rel written q hs
    simp only [applyOp]
    by_cases hq : q = rel
    · subst hq
      rw [if_pos rfl, hs]
      simp
    · rw [if_neg hq]
      exact hs

/-- Witness for C8's amended claim: a failed copy (nothing written) leaves
the existing destination entry in place. -/
theorem C8_removal_only_delete_or_move_witness :
    applyOp c8State (.copyOp ["a.txt".toList] false) ["a.txt".toList] = true :=
  C8_removal_only_delete_or_move.2 c8State ["a.txt".toList] false ["a.txt".toList] (by decide)

/-- C10 (counterexample): a Created/Modified file event whose
destination-directory creation (`ensure_dir_exists`, called at line 499
before the `try` block) raises lets the failure escape the handler — it is
not caught at the per-file boundary. -/
theorem C10_counterexample : ¬ claimC10Live := by
  intro h
  exact h c10Env .permissionError rfl rfl

/-- C10 (amended): a failure of the retried copy while handling one file
event is caught at the per-file boundary and logged (the handler returns
normally whenever the destination-directory creation succeeded); and in the
bulk walk every non-ignored file is either invoked for copy or skipped —
failures never abort the walk.  Only a failure of the destination-directory
creation, which runs before the per-file `try`, escapes the live handler. -/
theorem C10_per_file_boundary :
    (∀ env : EventEnv, env.isDirectory = false → env.ensureDirResult = none →
        sync_event env = .returned (exceptFailed env.copyResult)) ∧
    (∀ (ok : List PyStr → Bool) (dst : List PyStr → Option Nat) (files : List SrcFile),
        (initial_sync ok dst files).1.length + (initial_sync ok dst files).2.length =
          (files.filter (fun f => !shouldIgnoreRel f.rel)).length) := by
  constructor
  · intro env h1 h2
    simp [sync_event, h1, h2]
    cases env.copyResult <;> simp [exceptFailed]
  · intro ok dst files
    induction files generalizing dst with
    | nil => rfl
    | cons f fs ih =>
      by_cases hig : shouldIgnoreRel f.rel = true
      · simp [initial_sync, hig, ih dst]
      · rw [Bool.not_eq_true] at hig
        by_cases hel : eligible dst f = true
        · have := ih (updDst ok dst f)
          simp [initial_sync, hig, hel]
          omega
        · rw [Bool.not_eq_true] at hel
          have := ih dst
          simp [initial_sync, hig, hel]
          omega

/-- Witness for C10's amended claim: a failing retried copy is caught and
logged, and the handler returns normally. -/
theorem C10_per_file_boundary_witness : sync_event c10wEnv = .returned true :=
  C10_per_file_boundary.1 c10wEnv rfl rfl

/-- Unfolding of the copy condition of line 359. -/
theorem eligible_iff (dst : List PyStr → Option Nat) (f : SrcFile) :
    eligible dst f = true ↔
      (dst f.rel = none ∨ ∃ m, dst f.rel = some m ∧ m < f.mtime) := by
  unfold eligible
  cases h : dst f.rel with
  | none => simp
  | some m => simp

/-- Files whose copy the bulk walk invokes all come from the walked list. -/
theorem initial_sync_invoked_mem (ok : List PyStr → Bool) (fs : List SrcFile)
    (f : SrcFile) :
    ∀ dst : List PyStr → Option Nat, f ∈ (initial_sync ok dst fs).1 → f ∈ fs := by
  induction fs with
  | nil => intro dst h; simp [initial_sync] at h
  | cons g gs ih =>
    intro dst h
    by_cases hig : shouldIgnoreRel g.rel = true
    · rw [show initial_sync ok dst (g :: gs) = initial_sync ok dst gs by
        simp [initial_sync, hig]] at h
      exact List.mem_cons_of_mem _ (ih dst h)
    · rw [Bool.not_eq_true] at hig
      by_cases hel : eligible dst g = true
      · simp only [initial_sync, hig, hel, Bool.false_eq_true, if_false, if_true,
          List.mem_cons] at h
        rcases h with h | h
        · exact h ▸ List.mem_cons_self g gs
        · exact List.mem_cons_of_mem _ (ih _ h)
      · rw [Bool.not_eq_true] at hel
        simp only [initial_sync, hig, hel, Bool.false_eq_true, if_false] at h
        exact List.mem_cons_of_mem _ (ih dst h)

/-- C6: during a bulk reconciliation run whose walked source files have
distinct relative paths, a non-ignored source file's retried copy is
invoked iff its destination entry is missing or the source mtime is
strictly newer; files failing either condition are not invoked (skipped
without transfer). -/
theorem C6_copy_iff_missing_or_newer (ok : List PyStr → Bool)
    (dst : List PyStr → Option Nat) (files : List SrcFile)
    (hn : (files.map SrcFile.rel).Nodup) (f : SrcFile) (hf : f ∈ files) :
    f ∈ (initial_sync ok dst files).1 ↔
      (shouldIgnoreRel f.rel = false ∧
        (dst f.rel = none ∨ ∃ m, dst f.rel = some m ∧ m < f.mtime)) := by
  revert hn hf
  induction files generalizing dst with
  | nil =>
    intro hn hf
    exact absurd hf (List.not_mem_nil f)
  | cons g gs ih =>
    intro hn hf
    rw [List.map_cons, List.nodup_cons] at hn
    obtain ⟨hg, hn'⟩ := hn
    rcases List.mem_cons.mp hf with hfg | hfs
    · subst hfg
      have hgnot : f ∉ gs := fun hmem => hg (List.mem_map_of_mem SrcFile.rel hmem)
      by_cases hig : shouldIgnoreRel f.rel = true
      · rw [show initial_sync ok dst (f :: gs) = initial_sync ok dst gs by
          simp [initial_sync, hig]]
        constructor
        · intro hmem
          exact absurd (initial_sync_invoked_mem ok gs f dst hmem) hgnot
        · rintro ⟨hfalse, -⟩
          rw [hig] at hfalse
          exact absurd hfalse (by decide)
      · rw [Bool.not_eq_true] at hig
        by_cases hel : eligible dst f = true
        · simp only [initial_sync, hig, hel, Bool.false_eq_true, if_false, if_true]
          constructor
          · intro _
            exact ⟨trivial, (eligible_iff dst f).mp hel⟩
          · intro _
            exact List.mem_cons_self f _
        · rw [Bool.not_eq_true] at hel
          simp only [initial_sync, hig, hel, Bool.false_eq_true, if_false]
          constructor
          · intro hmem
            exact absurd (initial_sync_invoked_mem ok gs f dst hmem) hgnot
          · rintro ⟨-, hcond⟩
            have : eligible dst f = true := (eligible_iff dst f).mpr hcond
            rw [this] at hel
            exact absurd hel (by decide)
    · have hrelne : f.rel ≠ g.rel := by
        intro he
        exact hg (he ▸ List.mem_map_of_mem SrcFile.rel hfs)
      have hfneg : f ≠ g := fun he => hrelne (by rw [he])
      by_cases hig : shouldIgnoreRel g.rel = true
      · rw [show initial_sync ok dst (g :: gs) = initial_sync ok dst gs by
          simp [initial_sync, hig]]
        exact ih dst hn' hfs
      · rw [Bool.not_eq_true] at hig
        by_cases hel : eligible dst g = true
        · have hupd : updDst ok dst g f.rel = dst f.rel := by
            simp [updDst, hrelne]
          have ihres := ih (updDst ok dst g) hn' hfs
          rw [hupd] at ihres
          simp only [initial_sync, hig, hel, Bool.false_eq_true, if_false, if_true,
            List.mem_cons]
          rw [← ihres]
          constructor
          · rintro (he | hmem)
            · exact absurd he hfneg
            · exact hmem
          · intro hmem
            exact Or.inr hmem
        · rw [Bool.not_eq_true] at hel
          simp only [initial_sync, hig, hel, Bool.false_eq_true, if_false]
          exact ih dst hn' hfs

/-- Witness for C6: in a concrete run, the file `a` (destination missing)
is invoked for copy. -/
theorem C6_copy_iff_missing_or_newer_witness :
    c6f ∈ (initial_sync c6ok c6dst c6files).1 ↔
      (shouldIgnoreRel c6f.rel = false ∧
        (c6dst c6f.rel = none ∨ ∃ m, c6dst c6f.rel = some m ∧ m < c6f.mtime)) :=
  C6_copy_iff_missing_or_newer c6ok c6dst c6files (by decide) c6f (by decide)

/-- C7: for a non-ignored Moved event with non-empty paths, the handler
renames the existing local pre-move entry to the local post-move path —
issuing no task that reads the source tree — exactly when a destination
entry exists at the pre-move path; otherwise it issues exactly one copy,
whose source is the post-move source path and whose destination is the
local post-move path. -/
theorem C7_moved_dispatch (env : MovedEnv)
    (h1 : should_ignore_path env.cfg env.srcPath = false)
    (h2 : should_ignore_path env.cfg env.destPath = false)
    (h3 : env.srcPath ≠ []) (h4 : env.destPath ≠ []) :
    (env.localExists (pyJoin env.cfg.localDir (relpath env.srcPath env.cfg.remoteDir)) = true →
      on_moved env =
        [SyncTask.ensureDir
          (pyDirname (pyJoin env.cfg.localDir (relpath env.destPath env.cfg.remoteDir))),
         SyncTask.moveLocal
          (pyJoin env.cfg.localDir (relpath env.srcPath env.cfg.remoteDir))
          (pyJoin env.cfg.localDir (relpath env.destPath env.cfg.remoteDir))] ∧
      countCopies (on_moved env) = 0) ∧
    (env.localExists (pyJoin env.cfg.localDir (relpath env.srcPath env.cfg.remoteDir)) = false →
      on_moved env =
        [SyncTask.ensureDir
          (pyDirname (pyJoin env.cfg.localDir (relpath env.destPath env.cfg.remoteDir))),
         SyncTask.copyRemote env.destPath
          (pyJoin env.cfg.localDir (relpath env.destPath env.cfg.remoteDir))] ∧
      countCopies (on_moved env) = 1) := by
  have hsh : shouldHandleMoved env = true := by
    unfold shouldHandleMoved
    simp [h1, h2]
  constructor
  · intro hex
    have heq : on_moved env =
        [SyncTask.ensureDir
          (pyDirname (pyJoin env.cfg.localDir (relpath env.destPath env.cfg.remoteDir))),
         SyncTask.moveLocal
          (pyJoin env.cfg.localDir (relpath env.srcPath env.cfg.remoteDir))
          (pyJoin env.cfg.localDir (relpath env.destPath env.cfg.remoteDir))] := by
      unfold on_moved
      simp [hsh, h3, h4, hex]
    exact ⟨heq, by rw [heq]; rfl⟩
  · intro hex
    have heq : on_moved env =
        [SyncTask.ensureDir
          (pyDirname (pyJoin env.cfg.localDir (relpath env.destPath env.cfg.remoteDir))),
         SyncTask.copyRemote env.destPath
          (pyJoin env.cfg.localDir (relpath env.destPath env.cfg.remoteDir))] := by
      unfold on_moved
      simp [hsh, h3, h4, hex]
    exact ⟨heq, by rw [heq]; rfl⟩

/-- Witness for C7: the concrete event `a.txt → b.txt` with the pre-move
destination entry present yields a local rename and zero copies. -/
theorem C7_moved_dispatch_witness :
    on_moved c7env =
      [SyncTask.ensureDir "/dst".toList,
       SyncTask.moveLocal "/dst/a.txt".toList "/dst/b.txt".toList] ∧
    countCopies (on_moved c7env) = 0 :=
  (C7_moved_dispatch c7env (by decide) (by decide) (by decide) (by decide)).1 (by decide)

end RemoteSync
